import Mathlib

/-!
Verification of the deviceagent repository: a shallow Lean embedding of the
task scheduler, schedule service, feeder service retry wrapper, device
router, and the streaming event bridge, together with theorems settling the
stated behavioural claims.

Times are modelled as natural numbers counting seconds of local wall-clock
time in the single configured zone (Asia/Shanghai, a fixed UTC+8 offset with
no daylight saving), so `t / 86400` is the calendar date and `t % 86400` the
time-of-day component.  All datetimes in the source are normalised to this
zone before use, so the fixed-offset model is faithful.
-/

namespace DeviceAgent

/-- Seconds per calendar day in the fixed-offset local time model. -/
def secPerDay : Nat := 86400

/-- The daily-mode branch shared by `ScheduledTask._calculate_initial_next_run`
and `ScheduledTask.calculate_next_run` (task_scheduler.py lines 82-97 and
107-132): `replace(year, month, day)` re-anchors the time-of-day of
`scheduled_time` onto the current date, and if that instant is not after
`now` it is advanced by one day. -/
def dailyNextRun (scheduledTime now : Nat) : Nat :=
  let nextTime := now / secPerDay * secPerDay + scheduledTime % secPerDay
  if nextTime ≤ now then nextTime + secPerDay else nextTime

/-- In-memory scheduled task, mirroring the fields of `ScheduledTask.__init__`
(task_scheduler.py lines 24-69).  `feed_count` is an `Int` because the Python
value is an unrestricted int at this layer. -/
structure ScheduledTask where
  task_id : String
  device_id : String
  feed_count : Int
  scheduled_time : Nat
  mode : String
  next_run : Option Nat
  last_run : Option Nat
  run_count : Nat
  success_count : Nat
  failure_count : Nat
  last_error : Option String
  is_running : Bool
deriving Repr, DecidableEq

/-- `ScheduledTask._calculate_initial_next_run` (task_scheduler.py lines
71-100): for mode "daily" the re-anchored time, otherwise the scheduled
instant unchanged. -/
def calculateInitialNextRun (mode : String) (scheduledTime now : Nat) : Option Nat :=
  match mode with
  | "daily" => some (dailyNextRun scheduledTime now)
  | _ => some scheduledTime

/-- `ScheduledTask.calculate_next_run` (task_scheduler.py lines 102-133):
"once" tasks are never rescheduled; "daily" tasks use the same re-anchoring
computation; any other mode yields no next run. -/
def calculateNextRun (mode : String) (scheduledTime now : Nat) : Option Nat :=
  match mode with
  | "once" => none
  | "daily" => some (dailyNextRun scheduledTime now)
  | _ => none

/-- Construction of a `ScheduledTask` (task_scheduler.py lines 24-69): all
telemetry fields start empty and `next_run` is seeded by
`_calculate_initial_next_run` at the construction instant `now`. -/
def ScheduledTask.make (task_id device_id : String) (feed_count : Int)
    (scheduled_time : Nat) (mode : String) (now : Nat) : ScheduledTask where
  task_id := task_id
  device_id := device_id
  feed_count := feed_count
  scheduled_time := scheduled_time
  mode := mode
  next_run := calculateInitialNextRun mode scheduled_time now
  last_run := none
  run_count := 0
  success_count := 0
  failure_count := 0
  last_error := none
  is_running := false

/-! ## TaskScheduler state and operations (task_scheduler.py lines 153-394)

The Python scheduler owns `self.tasks`, a dict from task id to task object,
and `self.futures`, a dict from task id to the worker-pool future.  Both
dicts are modelled as functions into `Option`; the future is abstracted to
its `done` flag, the only part of it the scheduler reads. -/

/-- The mutable state of `TaskScheduler`: the in-memory job map and the
future map. -/
structure SchedState where
  tasks : String → Option ScheduledTask
  futures : String → Option Bool
deriving Inhabited

/-- The scheduler state right after `TaskScheduler.__init__`: no tasks, no
futures. -/
def SchedState.init : SchedState where
  tasks := fun _ => none
  futures := fun _ => none

/-- `TaskScheduler.add_task` (task_scheduler.py lines 184-201): under the
lock, fail if the id is already registered, otherwise insert the task. -/
def addTask (s : SchedState) (t : ScheduledTask) : Bool × SchedState :=
  match s.tasks t.task_id with
  | some _ => (false, s)
  | none =>
    (true, { s with tasks := fun id => if id = t.task_id then some t else s.tasks id })

/-- `TaskScheduler.remove_task` (task_scheduler.py lines 203-227): fail if
the id is unknown; otherwise drop any future for it (after a best-effort
cancel, which does not change scheduler state) and delete the task. -/
def removeTask (s : SchedState) (task_id : String) : Bool × SchedState :=
  match s.tasks task_id with
  | none => (false, s)
  | some _ =>
    (true,
     { tasks := fun id => if id = task_id then none else s.tasks id,
       futures := fun id => if id = task_id then none else s.futures id })

/-- The task-object mutation performed by `TaskScheduler._execute_task`
(task_scheduler.py lines 339-349) before the job is submitted to the worker
pool: mark running, stamp the last-run time, bump the run counter. -/
def executeTaskUpdate (t : ScheduledTask) (now : Nat) : ScheduledTask :=
  { t with is_running := true, last_run := some now, run_count := t.run_count + 1 }

/-- Outcome of one invocation of a task action function
(`task.execute_func`): it returned `True`, returned `False`, or raised an
exception carrying a message. -/
inductive ExecOutcome where
  | success
  | failureReturned
  | raised (msg : String)
deriving Repr, DecidableEq

/-- The task-object mutation performed by `TaskScheduler._run_task`
(task_scheduler.py lines 351-375) on the worker after the action function
finishes: bump exactly one of the success/failure counters and set
`last_error` accordingly, then (in the `finally` block) clear `is_running`
and recompute `next_run` at the completion instant. -/
def runTaskUpdate (t : ScheduledTask) (outcome : ExecOutcome) (now : Nat) : ScheduledTask :=
  let counted :=
    match outcome with
    | ExecOutcome.success =>
      { t with success_count := t.success_count + 1, last_error := none }
    | ExecOutcome.failureReturned =>
      { t with failure_count := t.failure_count + 1, last_error := some "执行返回失败" }
    | ExecOutcome.raised msg =>
      { t with failure_count := t.failure_count + 1, last_error := some msg }
  { counted with
    is_running := false,
    next_run := calculateNextRun t.mode t.scheduled_time now }

/-- The job-map effect of the tail of `TaskScheduler._run_task`
(task_scheduler.py lines 371-384): the task object named by `task_id` is
mutated by `runTaskUpdate`, and if the recomputed `next_run` is absent the
entry is deleted from the map under the lock (guarded by a membership check,
so deletion of an already-removed id is a no-op). -/
def runTaskFinish (s : SchedState) (task_id : String) (outcome : ExecOutcome)
    (now : Nat) : SchedState :=
  match s.tasks task_id with
  | none => s
  | some t =>
    let t' := runTaskUpdate t outcome now
    if t'.next_run.isSome then
      { s with tasks := fun id => if id = task_id then some t' else s.tasks id }
    else
      { s with tasks := fun id => if id = task_id then none else s.tasks id }

/-! ### Lock discipline of the completion path

`_run_task` runs on a worker thread.  Its counter updates (lines 358, 362,
367), the `is_running` clear (line 372) and the `next_run` recomputation
(line 375) are plain attribute writes with no `with self.lock` around them;
only the final map deletion (lines 382-384) is inside `with self.lock`.  The
trace below records, action by action and in source order, whether each
mutation happens while the scheduler lock is held. -/

/-- One primitive mutation of the completion path of `_run_task`. -/
inductive SchedAction where
  | incSuccess
  | incFailure
  | clearRunning
  | recomputeNextRun
  | removeFromMap
deriving Repr, DecidableEq

/-- A completion-path mutation together with whether the scheduler lock is
held while it executes. -/
structure TracedAction where
  act : SchedAction
  underLock : Bool
deriving Repr, DecidableEq

/-- The sequence of mutations `_run_task` performs after the action function
finishes, in source order, each tagged with the lock state at that program
point (task_scheduler.py lines 356-384).  `nextRunAfter` is the recomputed
next run; the map deletion happens only when it is absent. -/
def runTaskTrace (outcome : ExecOutcome) (nextRunAfter : Option Nat) : List TracedAction :=
  let counter :=
    match outcome with
    | ExecOutcome.success => SchedAction.incSuccess
    | _ => SchedAction.incFailure
  [⟨counter, false⟩, ⟨SchedAction.clearRunning, false⟩,
   ⟨SchedAction.recomputeNextRun, false⟩] ++
    (if nextRunAfter.isNone then [⟨SchedAction.removeFromMap, true⟩] else [])

/-! ### Per-job dispatch/completion transition system (claim C6)

`_scheduler_loop` (task_scheduler.py lines 312-337) dispatches a job only
when `next_run` is present, `next_run ≤ now` and `is_running` is false, and
`_execute_task` marks the job before submitting it to the pool.  The system
below tracks one job together with the number of worker executions of that
job currently in flight (a ghost counter: +1 at submission, -1 when
`_run_task` finishes). -/

/-- One job as seen by the scheduler, plus the ghost count of in-flight
worker executions for its id. -/
structure JobExec where
  task : ScheduledTask
  inFlight : Nat
deriving Repr, DecidableEq

/-- The two transitions a single job undergoes: the tick loop dispatches it
(guard and marking exactly as in `_scheduler_loop` and `_execute_task`),
or an in-flight execution completes (effect exactly `runTaskUpdate`). -/
inductive JobStep : JobExec → JobExec → Prop where
  | dispatch (s : JobExec) (now nr : Nat)
      (hnr : s.task.next_run = some nr) (hdue : nr ≤ now)
      (hidle : s.task.is_running = false) :
      JobStep s ⟨executeTaskUpdate s.task now, s.inFlight + 1⟩
  | complete (s : JobExec) (outcome : ExecOutcome) (now : Nat)
      (hflight : 1 ≤ s.inFlight) :
      JobStep s ⟨runTaskUpdate s.task outcome now, s.inFlight - 1⟩

/-- Scheduler states of one job reachable from its construction. -/
inductive JobReachable : JobExec → Prop where
  | init (task_id device_id : String) (feed_count : Int) (scheduled_time : Nat)
      (mode : String) (now : Nat) :
      JobReachable ⟨ScheduledTask.make task_id device_id feed_count scheduled_time mode now, 0⟩
  | step {a b : JobExec} : JobReachable a → JobStep a b → JobReachable b

/-! ## ScheduleService and the persisted task store (schedule_service.py)

The `tasks` table row (models/task.py) is modelled structurally: the JSON
strings `request` and `response` are represented by the structured data the
service reads and writes through them. -/

/-- One entry of the rolling execution log a daily job accumulates in its
`response` column (schedule_service.py lines 115-123). -/
structure ExecutionRecord where
  success : Bool
  device_id : String
  feed_count : Int
  executed_at : Nat
  error : Option String
deriving Repr, DecidableEq

/-- The `response` column contents: initially empty; a once job stores a
single result (or error) envelope; a daily job stores a rolling execution
log; `load_pending_tasks` stores an expiry note. -/
inductive TaskResponse where
  | empty
  | onceResult (success : Bool) (device_id : String) (feed_count : Int) (executed_at : Nat)
  | onceError (error : String) (executed_at : Nat)
  | executions (log : List ExecutionRecord)
  | expired (scheduled_time checked_at : Nat)
deriving Repr, DecidableEq

/-- A row of the `tasks` table (models/task.py lines 12-56) with the JSON
columns structured. -/
structure TaskRecord where
  task_id : String
  topic : String
  tool_name : String
  mode : String
  device_id : String
  feed_count : Int
  scheduled_time : Nat
  status : String
  response : TaskResponse
  completed_at : Option Nat
deriving Repr, DecidableEq

/-- `session.query(Task).filter(Task.task_id == tid).first()` followed by a
mutation and commit: update the first row whose id matches, leave everything
else untouched. -/
def updateFirst (db : List TaskRecord) (task_id : String)
    (f : TaskRecord → TaskRecord) : List TaskRecord :=
  match db with
  | [] => []
  | r :: rest =>
    if r.task_id = task_id then f r :: rest else r :: updateFirst rest task_id f

/-- `ScheduleService._update_task_execution_record` (schedule_service.py
lines 104-136): read the existing execution log out of `response` (resetting
to empty if it is not a log), append one record, keep only the last 10
entries, and write the log back.  The `status` and `completed_at` columns are
not touched. -/
def updateTaskExecutionRecord (db : List TaskRecord) (task_id : String)
    (success : Bool) (device_id : String) (feed_count : Int)
    (error : Option String) (now : Nat) : List TaskRecord :=
  updateFirst db task_id fun r =>
    let log :=
      match r.response with
      | TaskResponse.executions l => l
      | _ => []
    let log := log ++ [⟨success, device_id, feed_count, now, error⟩]
    let log := if log.length > 10 then log.drop (log.length - 10) else log
    { r with response := TaskResponse.executions log }

/-- `ScheduleService._update_task_status` (schedule_service.py lines
138-152): set the status, overwrite `response` when one is supplied, and
stamp `completed_at` when the new status is `completed`. -/
def updateTaskStatus (db : List TaskRecord) (task_id : String) (status : String)
    (response : Option TaskResponse) (now : Nat) : List TaskRecord :=
  updateFirst db task_id fun r =>
    { r with
      status := status,
      response := response.getD r.response,
      completed_at := if status = "completed" then some now else r.completed_at }

/-- Outcome of the inner `feeder_service.feed` call inside
`_execute_feed_task`: it returned a boolean, or raised with a message. -/
inductive FeedOutcome where
  | returned (b : Bool)
  | raised (e : String)
deriving Repr, DecidableEq

/-- `ScheduleService._execute_feed_task` (schedule_service.py lines 33-102):
run the feed, then for mode "daily" append an execution record (keeping the
row pending), and for any other mode move the row to `completed`/`failed`.
Returns the boolean handed back to the scheduler and the updated store. -/
def executeFeedTask (task_id device_id : String) (feed_count : Int)
    (mode : String) (outcome : FeedOutcome) (now : Nat)
    (db : List TaskRecord) : Bool × List TaskRecord :=
  match outcome with
  | FeedOutcome.returned result =>
    if mode = "daily" then
      (result, updateTaskExecutionRecord db task_id result device_id feed_count none now)
    else
      (result,
       updateTaskStatus db task_id (if result then "completed" else "failed")
         (some (TaskResponse.onceResult result device_id feed_count now)) now)
  | FeedOutcome.raised e =>
    if mode = "daily" then
      (false, updateTaskExecutionRecord db task_id false device_id feed_count (some e) now)
    else
      (false, updateTaskStatus db task_id "failed" (some (TaskResponse.onceError e now)) now)

/-- `ScheduleService.create_task` (schedule_service.py lines 154-240): after
normalising the time zone, reject a once-mode request whose instant is not
strictly in the future before anything is persisted; otherwise insert a
pending row and register a `ScheduledTask` with the scheduler.  Returns the
result success flag together with the updated store and scheduler state. -/
def createTask (task_id device_id : String) (feed_count : Int)
    (scheduled_time : Nat) (mode : String) (now : Nat)
    (db : List TaskRecord) (sched : SchedState) :
    Bool × List TaskRecord × SchedState :=
  if mode = "once" ∧ scheduled_time ≤ now then
    (false, db, sched)
  else
    let record : TaskRecord :=
      { task_id := task_id, topic := "定时投喂", tool_name := "feed_device",
        mode := mode, device_id := device_id, feed_count := feed_count,
        scheduled_time := scheduled_time, status := "pending",
        response := TaskResponse.empty, completed_at := none }
    let db := db ++ [record]
    let sched :=
      (addTask sched
        (ScheduledTask.make task_id device_id feed_count scheduled_time mode now)).2
    (true, db, sched)

/-- The `scheduled_time` argument of the `create_schedule_task` tool as it
stands after the presence check and the ISO parse attempt: missing,
malformed, or a parsed zone-normalised instant. -/
inductive ScheduledTimeArg where
  | missing
  | malformed
  | parsed (t : Nat)
deriving Repr, DecidableEq

/-- The `create_schedule_task` tool (feeder_tools.py lines 247-318): validate
`device_id` and `scheduled_time` presence, the 1-10 feed-count range and the
once/daily mode, parse the time, and only then delegate to
`ScheduleService.create_task`.  Every rejection happens before any state is
touched. -/
def createScheduleTask (task_id : String) (device_id : Option String)
    (feed_count : Int) (scheduled_time : ScheduledTimeArg) (mode : String)
    (now : Nat) (db : List TaskRecord) (sched : SchedState) :
    Bool × List TaskRecord × SchedState :=
  match device_id with
  | none => (false, db, sched)
  | some did =>
    if scheduled_time = ScheduledTimeArg.missing then (false, db, sched)
    else if feed_count ≤ 0 ∨ feed_count > 10 then (false, db, sched)
    else if ¬(mode = "once" ∨ mode = "daily") then (false, db, sched)
    else
      match scheduled_time with
      | ScheduledTimeArg.parsed t => createTask task_id did feed_count t mode now db sched
      | _ => (false, db, sched)

/-! ## FeederService and the auth-expiry retry wrapper (feeder_service.py)

The vendor API is modelled as a list of `_post` outcomes consumed in call
order: every `self._post(payload)` takes the next element (an exhausted list
behaves as a transport failure).  Credentials are assumed configured, as in
any deployment that reaches these code paths. -/

/-- Result of one `FeederService._post` call: a transport-level failure, or
an HTTP-successful response with a vendor `status` code and a payload (used
as the fresh authkey for login responses). -/
inductive PostResult where
  | transportErr
  | ok (status : Int) (payload : String)
deriving Repr, DecidableEq

/-- Which vendor API call was issued (ghost instrumentation matching the
log lines of feeder_service.py). -/
inductive CallKind where
  | loginCall
  | feedCall
deriving Repr, DecidableEq

/-- The mutable fields of `FeederService` that the retry logic reads: the
cached authkey and `_last_api_status`, the status code recorded by the most
recent transport-successful device call. -/
structure FeederState where
  authkey : Option String
  lastApiStatus : Option Int
deriving Repr, DecidableEq

/-- `FeederService.__init__` (feeder_service.py lines 72-85): no authkey, no
recorded status. -/
def FeederState.init : FeederState where
  authkey := none
  lastApiStatus := none

/-- Result of a service call in the world model: return value, new service
state, remaining world, and the sequence of vendor calls issued. -/
structure CallResult (α : Type) where
  ret : α
  st : FeederState
  world : List PostResult
  calls : List CallKind
deriving Repr, DecidableEq

/-- `FeederService.login` (feeder_service.py lines 105-135): one `_post`;
on vendor status 1 the fresh authkey is cached and the call succeeds; any
other status or a transport failure leaves the state unchanged.  Note that
`login` never writes `_last_api_status`. -/
def login (st : FeederState) (w : List PostResult) : CallResult Bool :=
  match w with
  | [] => ⟨false, st, [], [CallKind.loginCall]⟩
  | PostResult.ok s key :: rest =>
    if s = 1 then ⟨true, { st with authkey := some key }, rest, [CallKind.loginCall]⟩
    else ⟨false, st, rest, [CallKind.loginCall]⟩
  | PostResult.transportErr :: rest => ⟨false, st, rest, [CallKind.loginCall]⟩

/-- The `msgType 2001` feed `_post` of `FeederService.feed` (feeder_service.py
lines 158-184): on a transport-successful response the vendor status is
recorded into `_last_api_status` and the call succeeds exactly when it is 1;
on a transport failure nothing is recorded and the call fails. -/
def feedPost (st : FeederState) (w : List PostResult) : CallResult Bool :=
  match w with
  | [] => ⟨false, st, [], [CallKind.feedCall]⟩
  | PostResult.ok s _ :: rest =>
    ⟨s == 1, { st with lastApiStatus := some s }, rest, [CallKind.feedCall]⟩
  | PostResult.transportErr :: rest => ⟨false, st, rest, [CallKind.feedCall]⟩

/-- The undecorated body of `FeederService.feed` (feeder_service.py lines
138-184): if no authkey is cached, log in first and give up on login
failure without issuing the feed call; otherwise issue the feed call. -/
def feedBody (st : FeederState) (w : List PostResult) : CallResult Bool :=
  match st.authkey with
  | some _ => feedPost st w
  | none =>
    let l := login st w
    if l.ret then
      let f := feedPost l.st l.world
      ⟨f.ret, f.st, f.world, l.calls ++ f.calls⟩
    else
      ⟨false, l.st, l.world, l.calls⟩

/-- The `auto_retry_on_auth_error` decorator (feeder_service.py lines
18-66) applied to a body: run the body once; if the *recorded*
`_last_api_status` is 7 and an authkey is still cached, clear the authkey,
log in again, and on login success run the body exactly once more (the
retry is flagged so its own result is returned directly); on login failure
the first result is surfaced.  In every other case the first result is
surfaced untouched. -/
def autoRetryOnAuthError (body : FeederState → List PostResult → CallResult Bool)
    (st : FeederState) (w : List PostResult) : CallResult Bool :=
  let r1 := body st w
  if r1.st.lastApiStatus = some 7 ∧ r1.st.authkey.isSome then
    let cleared := { r1.st with authkey := none }
    let l := login cleared r1.world
    if l.ret then
      let r2 := body l.st l.world
      ⟨r2.ret, r2.st, r2.world, r1.calls ++ l.calls ++ r2.calls⟩
    else
      ⟨r1.ret, l.st, l.world, r1.calls ++ l.calls⟩
  else r1

/-- `FeederService.feed` as exposed to callers: the body wrapped by the
retry decorator. -/
def feed (st : FeederState) (w : List PostResult) : CallResult Bool :=
  autoRetryOnAuthError feedBody st w

/-- The response consumed by the feed `_post` of the *first* body attempt of
a `feed` call (none when the preliminary login fails and no feed call is
issued). -/
def firstFeedResponse (st : FeederState) (w : List PostResult) : Option PostResult :=
  match st.authkey with
  | some _ => w.head?
  | none =>
    let l := login st w
    if l.ret then l.world.head? else none

/-! ## Device router (graph/nodes.py, enums/device_type.py)

`device_router_node` inspects the raw classification text character by
character (`find`, `rfind`, slicing), so the text is modelled as a list of
characters.  `json.loads` is abstracted into a `parse` parameter returning
the two string fields the router reads; a parse failure (JSONDecodeError)
is `none`. -/

/-- Device type enum (enums/device_type.py lines 5-11). -/
inductive DeviceType where
  | feeder
  | camera
  | sensor
  | unknown
deriving Repr, DecidableEq

/-- The wire value of a device type (the enum member values). -/
def DeviceType.value : DeviceType → String
  | DeviceType.feeder => "feeder"
  | DeviceType.camera => "camera"
  | DeviceType.sensor => "sensor"
  | DeviceType.unknown => "unknown"

/-- Python `str.lower` restricted to its ASCII action, character by
character (the device-type strings compared here are ASCII). -/
def pyLower (s : String) : String :=
  String.mk (s.data.map Char.toLower)

/-- `DeviceType.from_str` (enums/device_type.py lines 13-19): compare the
lowercased input against each member value in declaration order, falling
back to `UNKNOWN`. -/
def DeviceType.fromStr (s : String) : DeviceType :=
  if pyLower s = "feeder" then DeviceType.feeder
  else if pyLower s = "camera" then DeviceType.camera
  else if pyLower s = "sensor" then DeviceType.sensor
  else DeviceType.unknown

/-- Python `str.find`: index of the first occurrence, `-1` if absent. -/
def pyFind (s : List Char) (c : Char) : Int :=
  match s.findIdx? (fun x => x = c) with
  | some i => (i : Int)
  | none => -1

/-- Python `str.rfind`: index of the last occurrence, `-1` if absent. -/
def pyRfind (s : List Char) (c : Char) : Int :=
  match s.reverse.findIdx? (fun x => x = c) with
  | some i => ((s.length - 1 - i : Nat) : Int)
  | none => -1

/-- Python slice `s[i:j+1]` for `0 ≤ i ≤ j`. -/
def pySlice (s : List Char) (i j : Int) : List Char :=
  (s.drop i.toNat).take (j.toNat + 1 - i.toNat)

/-- The two fields `device_router_node` reads out of the parsed routing
JSON, each absent when the key is missing. -/
structure RoutingJson where
  target_node : Option String
  device_type : Option String
deriving Repr, DecidableEq

/-- The node names accepted by the router (graph/nodes.py line 198). -/
def validNodes : List String :=
  ["feeder_agent_node", "camera_agent_node", "sensor_agent_node"]

/-- Python `needle in hay` on character sequences: some drop of `hay`
starts with `needle`. -/
def containsSub (needle hay : List Char) : Bool :=
  (List.range (hay.length + 1)).any fun i => needle.isPrefixOf (hay.drop i)

/-- The keyword-extraction fallback of `device_router_node` (graph/nodes.py
lines 210-222): match device keywords against the lowercased response text
in feeder, camera, sensor order; with no match the previously-set feeder
defaults survive. -/
def keywordExtract (responseText : List Char) : DeviceType × String :=
  let lowered := responseText.map Char.toLower
  if containsSub "feeder".data lowered ∨ containsSub "喂食".data lowered then
    (DeviceType.feeder, "feeder_agent_node")
  else if containsSub "camera".data lowered ∨ containsSub "拍照".data lowered ∨
      containsSub "摄像".data lowered then
    (DeviceType.camera, "camera_agent_node")
  else if containsSub "sensor".data lowered ∨ containsSub "传感器".data lowered ∨
      containsSub "水质".data lowered then
    (DeviceType.sensor, "sensor_agent_node")
  else (DeviceType.feeder, "feeder_agent_node")

/-- The routing decision of `device_router_node` (graph/nodes.py lines
180-244): locate a brace-delimited candidate substring; if one exists, parse
it — on success take `target_node` and `device_type` (with feeder defaults
for missing keys), resetting both to the feeder defaults when the node name
is invalid; on a parse failure fall back to keyword extraction.  When no
opening brace exists at all, keyword extraction also runs; but when an
opening brace exists without a closing brace after it, the brace condition
fails while `json_start` stays non-negative, so the keyword branch is
skipped and the feeder defaults stand.  The returned pair is also the
content of the emitted `routing` event. -/
def deviceRouterRoute (parse : List Char → Option RoutingJson)
    (responseText : List Char) : DeviceType × String :=
  let jsonStart := pyFind responseText '{'
  let jsonEnd := pyRfind responseText '}'
  if jsonStart ≠ -1 ∧ jsonEnd ≠ -1 ∧ jsonEnd > jsonStart then
    match parse (pySlice responseText jsonStart jsonEnd) with
    | some rd =>
      let targetNode := rd.target_node.getD "feeder_agent_node"
      let deviceType := DeviceType.fromStr (rd.device_type.getD "feeder")
      if targetNode ∈ validNodes then (deviceType, targetNode)
      else (DeviceType.feeder, "feeder_agent_node")
    | none => keywordExtract responseText
  else if jsonStart = -1 then keywordExtract responseText
  else (DeviceType.feeder, "feeder_agent_node")

/-! ## The streaming event bridge (api/device_api.py lines 96-181)

`chat_stream.event_generator` runs the workflow as a separate asyncio task
that pushes events into a FIFO queue, while the generator drains the queue
with a 100 ms receive timeout and detects completion on timeout.  The model
below is a small-step transition system over every interleaving asyncio
allows: producer pushes and the completion flag interleave freely with the
consumer at its suspension points.  The crucial timing detail is kept: a
receive timeout fires only when the queue is empty at expiry, but the
producer may run — push events and complete — between the expiry and the
moment the consumer resumes and checks `workflow_task.done()`. -/

/-- One `data:` frame of the SSE stream.  Pushed workflow events are
abstracted to their queue payload (a number). -/
inductive Frame where
  | start
  | event (e : Nat)
  | done (success : Bool)
  | error (msg : String)
deriving Repr, DecidableEq

/-- The final state of the workflow task: a final state whose `error` field
determines `success`, or an exception raised out of awaiting the task. -/
inductive FinalOutcome where
  | result (success : Bool)
  | exc (msg : String)
deriving Repr, DecidableEq

/-- The single terminal frame the generator emits for a final outcome
(device_api.py lines 146-173). -/
def terminalFrame : FinalOutcome → Frame
  | FinalOutcome.result b => Frame.done b
  | FinalOutcome.exc m => Frame.error m

/-- One streamed request: the events the pipeline pushes, in push order, and
the final outcome of the workflow task. -/
structure BridgeConfig where
  evs : List Nat
  final : FinalOutcome
deriving Repr, DecidableEq

/-- Where the consumer coroutine is suspended. -/
inductive Phase where
  | waiting
  | timedOut
  | finished
deriving Repr, DecidableEq

/-- A configuration of the generator run: producer progress, the FIFO
queue, the frames yielded so far, the consumer flag `workflow_done` and
its phase. -/
structure BridgeState where
  pushed : Nat
  producerDone : Bool
  queue : List Nat
  out : List Frame
  workflowDone : Bool
  phase : Phase
deriving Repr, DecidableEq

/-- The generator right after yielding the start frame and spawning the
workflow task (device_api.py lines 104-130). -/
def BridgeState.init : BridgeState where
  pushed := 0
  producerDone := false
  queue := []
  out := [Frame.start]
  workflowDone := false
  phase := Phase.waiting

/-- All interleaved small steps of the producer task and the consumer
draining loop of `event_generator` (device_api.py lines 132-173). -/
inductive BridgeStep (c : BridgeConfig) : BridgeState → BridgeState → Prop where
  /-- The workflow pushes its next event (`put_nowait`). -/
  | push (s : BridgeState) (h : s.pushed < c.evs.length) (hp : s.producerDone = false) :
      BridgeStep c s
        { s with pushed := s.pushed + 1, queue := s.queue ++ [c.evs.get ⟨s.pushed, h⟩] }
  /-- The workflow task completes after pushing everything. -/
  | finish (s : BridgeState) (h : s.pushed = c.evs.length) (hp : s.producerDone = false) :
      BridgeStep c s { s with producerDone := true }
  /-- `wait_for(queue.get(), 0.1)` returns an event, which is yielded. -/
  | consumeGet (s : BridgeState) (e : Nat) (rest : List Nat)
      (hph : s.phase = Phase.waiting) (hq : s.queue = e :: rest) :
      BridgeStep c s { s with queue := rest, out := s.out ++ [Frame.event e] }
  /-- The receive times out: the queue was empty for the whole window and the
  loop was entered because the workflow was not yet marked done. -/
  | consumeTimeout (s : BridgeState) (hph : s.phase = Phase.waiting)
      (hq : s.queue = []) (hw : s.workflowDone = false) :
      BridgeStep c s { s with phase := Phase.timedOut }
  /-- The consumer resumes from the timeout and finds the task not done. -/
  | resumePending (s : BridgeState) (hph : s.phase = Phase.timedOut)
      (hp : s.producerDone = false) :
      BridgeStep c s { s with phase := Phase.waiting }
  /-- The consumer resumes from the timeout, finds the task done, and
  immediately yields the terminal frame — before draining whatever was
  pushed between the timeout expiry and this resumption. -/
  | resumeDone (s : BridgeState) (hph : s.phase = Phase.timedOut)
      (hp : s.producerDone = true) :
      BridgeStep c s
        { s with phase := Phase.waiting, workflowDone := true,
                 out := s.out ++ [terminalFrame c.final] }
  /-- The loop condition fails (`workflow_done` and empty queue): the
  generator stops. -/
  | exitLoop (s : BridgeState) (hph : s.phase = Phase.waiting)
      (hw : s.workflowDone = true) (hq : s.queue = []) :
      BridgeStep c s { s with phase := Phase.finished }

/-- Generator configurations reachable in some asyncio interleaving. -/
inductive BridgeReachable (c : BridgeConfig) : BridgeState → Prop where
  | init : BridgeReachable c BridgeState.init
  | step {a b : BridgeState} :
      BridgeReachable c a → BridgeStep c a b → BridgeReachable c b

/-- Inductive invariant of the generator run: producer progress bounds, flag
implications, and the shape of the yielded output — before the terminal
frame the output is the start frame plus a delivered prefix of the pushed
events; after it the undelivered remainder is split around the terminal
frame, with the still-queued suffix following it. -/
def BridgeInv (c : BridgeConfig) (s : BridgeState) : Prop :=
  s.pushed ≤ c.evs.length ∧
  (s.producerDone = true → s.pushed = c.evs.length) ∧
  (s.workflowDone = true → s.producerDone = true) ∧
  (s.phase = Phase.timedOut → s.workflowDone = false) ∧
  (s.phase = Phase.finished → s.workflowDone = true ∧ s.queue = []) ∧
  (s.workflowDone = false →
    ∃ A, A ++ s.queue = c.evs.take s.pushed ∧
      s.out = Frame.start :: A.map Frame.event) ∧
  (s.workflowDone = true →
    ∃ A B, A ++ B ++ s.queue = c.evs.take s.pushed ∧
      s.out = Frame.start ::
        (A.map Frame.event ++ terminalFrame c.final :: B.map Frame.event))

/-! ## Auxiliary constants used by concrete witnesses -/

/-- A concrete once-mode task used by witness instances. -/
def w8task : ScheduledTask := ScheduledTask.make "t1" "d1" 1 100 "once" 0

/-- A concrete once-mode task used by the completion-path witness. -/
def c5Task : ScheduledTask := ScheduledTask.make "t5" "d5" 2 100 "once" 0

/-- A scheduler holding exactly `c5Task`. -/
def c5State : SchedState := (addTask SchedState.init c5Task).2

/-- First-call world for the stale-status scenario: login succeeds, the feed
returns vendor status 7, the re-login succeeds, and the retried feed fails
at transport level, leaving the recorded status at 7. -/
def c4WorldA : List PostResult :=
  [PostResult.ok 1 "k1", PostResult.ok 7 "x", PostResult.ok 1 "k2",
   PostResult.transportErr]

/-- The service state after the first call: authkey cached, recorded status
stuck at 7. -/
def c4StateStale : FeederState := (feed FeederState.init c4WorldA).st

/-- Second-call world: the feed fails at transport level (no status code at
all), then a login succeeds and the retried feed returns status 2. -/
def c4WorldB : List PostResult :=
  [PostResult.transportErr, PostResult.ok 1 "k3", PostResult.ok 2 "y"]

/-! ## Theorems -/

/-- C1: for every daily-mode job, the next-run computation — at construction
(`_calculate_initial_next_run`) and after every firing (`calculate_next_run`)
— returns the unique instant that carries the time-of-day component of
`scheduledTime`, lies strictly after `now`, and is at most one calendar day
later; i.e. the time-of-day re-anchored to the current date, advanced by
exactly one day when the anchored instant is not in the future.  In
particular a daily job at 08:00 constructed at 09:00 is seeded to
tomorrow 08:00. -/
theorem daily_next_run_reanchors_to_current_date (s now : Nat) :
    ∃ r, calculateInitialNextRun "daily" s now = some r ∧
      calculateNextRun "daily" s now = some r ∧
      r % secPerDay = s % secPerDay ∧
      now < r ∧ r ≤ now + secPerDay ∧
      (∀ t, now < t → t ≤ now + secPerDay → t % secPerDay = s % secPerDay → t = r) ∧
      calculateInitialNextRun "daily" (8 * 3600) (9 * 3600) = some (secPerDay + 8 * 3600) := by
  refine ⟨dailyNextRun s now, rfl, rfl, ?_, ?_, ?_, ?_, rfl⟩
  · simp only [dailyNextRun, secPerDay]
    split <;> omega
  · simp only [dailyNextRun, secPerDay]
    split <;> omega
  · simp only [dailyNextRun, secPerDay]
    split <;> omega
  · intro t ht1 ht2 ht3
    simp only [dailyNextRun, secPerDay] at *
    split <;> omega

/-- Concrete instance of the daily next-run property at 08:00/09:00. -/
theorem daily_next_run_reanchors_witness :
    ∃ r, calculateInitialNextRun "daily" (8 * 3600) (9 * 3600) = some r ∧
      calculateNextRun "daily" (8 * 3600) (9 * 3600) = some r ∧
      r % secPerDay = (8 * 3600) % secPerDay ∧
      9 * 3600 < r ∧ r ≤ 9 * 3600 + secPerDay ∧
      (∀ t, 9 * 3600 < t → t ≤ 9 * 3600 + secPerDay →
        t % secPerDay = (8 * 3600) % secPerDay → t = r) ∧
      calculateInitialNextRun "daily" (8 * 3600) (9 * 3600) = some (secPerDay + 8 * 3600) :=
  daily_next_run_reanchors_to_current_date (8 * 3600) (9 * 3600)

/-- C8: `add_task` is idempotent-safe — with a fresh id the task is
registered and `true` returned; with an already-registered id it returns
`false` and leaves the scheduler state exactly as it was, so a second call
with the same task is a no-op. -/
theorem add_task_idempotent_safe (s : SchedState) (t : ScheduledTask) :
    (s.tasks t.task_id = none →
      (addTask s t).1 = true ∧ (addTask s t).2.tasks t.task_id = some t) ∧
    (∀ u, s.tasks t.task_id = some u → addTask s t = (false, s)) ∧
    addTask (addTask s t).2 t = (false, (addTask s t).2) := by
  refine ⟨?_, ?_, ?_⟩
  · intro h
    simp [addTask, h]
  · intro u h
    simp [addTask, h]
  · cases h : s.tasks t.task_id with
    | none => simp [addTask, h]
    | some u => simp [addTask, h]

/-- Concrete instance of `add_task` idempotent safety on an initially empty
scheduler. -/
theorem add_task_idempotent_safe_witness :
    (addTask SchedState.init w8task).1 = true ∧
    addTask (addTask SchedState.init w8task).2 w8task =
      (false, (addTask SchedState.init w8task).2) := by
  have h := add_task_idempotent_safe SchedState.init w8task
  exact ⟨(h.1 rfl).1, h.2.2⟩

/-- C5 counterexample: in `_run_task`, the counter update, the `is_running`
clear and the `next_run` recomputation are *not* performed under the
scheduler lock — only the final map removal is — so the claim that all four
completion effects happen "under the same lock that guards the job map" is
false already for a successfully completing once-mode job. -/
theorem run_task_lock_scope_counterexample :
    runTaskTrace ExecOutcome.success none =
      [⟨SchedAction.incSuccess, false⟩, ⟨SchedAction.clearRunning, false⟩,
       ⟨SchedAction.recomputeNextRun, false⟩, ⟨SchedAction.removeFromMap, true⟩] ∧
    ¬ ∀ a ∈ runTaskTrace ExecOutcome.success none, a.underLock = true := by
  refine ⟨rfl, ?_⟩
  decide

/-- Lock scope of the completion-path trace: the lock is held exactly for
the map removal. -/
theorem runTaskTrace_lock (o : ExecOutcome) (nr : Option Nat) :
    ∀ a ∈ runTaskTrace o nr, (a.underLock = true ↔ a.act = SchedAction.removeFromMap) := by
  intro a ha
  cases o <;> cases nr <;> simp [runTaskTrace] at ha <;>
    rcases ha with rfl | rfl | rfl | rfl <;> simp

/-- C5 (amended): when a job execution completes, the scheduler increments
exactly one of the success/failure counters, clears `is_running`, and
recomputes `next_run` — all *outside* the lock — and, if `next_run` is
absent, removes the job from the in-memory set under the lock; consequently
a once-mode job is absent from the set after one firing, and removing it
again is safe. -/
theorem run_task_completion_amended (s : SchedState) (t : ScheduledTask)
    (outcome : ExecOutcome) (now : Nat) (hmem : s.tasks t.task_id = some t) :
    ((outcome = ExecOutcome.success ∧
        (runTaskUpdate t outcome now).success_count = t.success_count + 1 ∧
        (runTaskUpdate t outcome now).failure_count = t.failure_count) ∨
      (outcome ≠ ExecOutcome.success ∧
        (runTaskUpdate t outcome now).failure_count = t.failure_count + 1 ∧
        (runTaskUpdate t outcome now).success_count = t.success_count)) ∧
    (runTaskUpdate t outcome now).is_running = false ∧
    (runTaskUpdate t outcome now).next_run = calculateNextRun t.mode t.scheduled_time now ∧
    (∀ a ∈ runTaskTrace outcome (runTaskUpdate t outcome now).next_run,
      (a.underLock = true ↔ a.act = SchedAction.removeFromMap)) ∧
    (t.mode = "once" →
      (runTaskFinish s t.task_id outcome now).tasks t.task_id = none ∧
      removeTask (runTaskFinish s t.task_id outcome now) t.task_id =
        (false, runTaskFinish s t.task_id outcome now)) := by
  refine ⟨?_, ?_, ?_, ?_, ?_⟩
  · cases outcome with
    | success => exact Or.inl ⟨rfl, rfl, rfl⟩
    | failureReturned => exact Or.inr ⟨by simp, rfl, rfl⟩
    | raised msg => exact Or.inr ⟨by simp, rfl, rfl⟩
  · cases outcome <;> rfl
  · cases outcome <;> rfl
  · exact runTaskTrace_lock outcome _
  · intro hmode
    have hnone : (runTaskUpdate t outcome now).next_run = none := by
      cases outcome <;> simp [runTaskUpdate, calculateNextRun, hmode]
    constructor
    · simp [runTaskFinish, hmem, hnone]
    · have habs : (runTaskFinish s t.task_id outcome now).tasks t.task_id = none := by
        simp [runTaskFinish, hmem, hnone]
      simp [removeTask, habs]

/-- Concrete instance of the amended completion behaviour for a registered
once-mode job. -/
theorem run_task_completion_amended_witness :
    (runTaskUpdate c5Task ExecOutcome.success 500).is_running = false ∧
    (runTaskFinish c5State "t5" ExecOutcome.success 500).tasks "t5" = none := by
  have h := run_task_completion_amended c5State c5Task ExecOutcome.success 500 (by decide)
  exact ⟨h.2.1, (h.2.2.2.2 (by decide)).1⟩

/-- A completed execution always leaves `is_running` cleared. -/
theorem runTaskUpdate_is_running (t : ScheduledTask) (o : ExecOutcome) (now : Nat) :
    (runTaskUpdate t o now).is_running = false := by
  cases o <;> rfl

/-- Inductive invariant of the per-job system: the ghost in-flight counter
is 1 exactly when `is_running` is set. -/
theorem jobExec_inflight_inv {je : JobExec} (h : JobReachable je) :
    je.inFlight = (if je.task.is_running then 1 else 0) := by
  induction h with
  | init task_id device_id feed_count scheduled_time mode now =>
    simp [ScheduledTask.make]
  | step _ hs ih =>
    cases hs with
    | dispatch now nr hnr hdue hidle =>
      simp only [hidle] at ih
      simp [executeTaskUpdate, ih]
    | complete outcome now hflight =>
      simp only [runTaskUpdate_is_running, Bool.false_eq_true, if_false]
      split at ih <;> omega

/-- C6: the tick loop dispatches only a due, idle job and marks it
(`is_running`, `last_run`, `run_count`) before the worker-pool handoff, and
in every reachable per-job scheduler state at most one execution of the job
is in flight. -/
theorem dispatch_gating_single_flight :
    (∀ je, JobReachable je → je.inFlight ≤ 1) ∧
    (∀ je je2, JobStep je je2 → je.inFlight < je2.inFlight →
      je.task.is_running = false ∧ je2.task.is_running = true ∧
      je2.task.run_count = je.task.run_count + 1 ∧
      ∃ now nr, je.task.next_run = some nr ∧ nr ≤ now ∧
        je2.task.last_run = some now ∧
        je2 = ⟨executeTaskUpdate je.task now, je.inFlight + 1⟩) := by
  constructor
  · intro je h
    have := jobExec_inflight_inv h
    split at this <;> omega
  · intro je je2 hstep hgrow
    cases hstep with
    | dispatch now nr hnr hdue hidle =>
      exact ⟨hidle, rfl, rfl, now, nr, hnr, hdue, rfl, rfl⟩
    | complete outcome now hflight =>
      exfalso
      have hgrow2 : je.inFlight < je.inFlight - 1 := hgrow
      omega

/-- Concrete instance: a freshly constructed job has at most one execution
in flight. -/
theorem dispatch_gating_single_flight_witness :
    (⟨ScheduledTask.make "t6" "d6" 1 100 "once" 0, 0⟩ : JobExec).inFlight ≤ 1 :=
  dispatch_gating_single_flight.1 _ (JobReachable.init "t6" "d6" 1 100 "once" 0)

/-- `updateFirst` leaves any column untouched by the row mutation unchanged
on every row. -/
theorem updateFirst_map_of_preserve {α : Type} (db : List TaskRecord) (tid : String)
    (f : TaskRecord → TaskRecord) (g : TaskRecord → α) (h : ∀ r, g (f r) = g r) :
    (updateFirst db tid f).map g = db.map g := by
  induction db with
  | nil => rfl
  | cons r rest ih =>
    by_cases hr : r.task_id = tid
    · simp [updateFirst, hr, h r]
    · simp [updateFirst, hr, ih]

/-- Looking up the first row with a given id after `updateFirst` for that id
yields the mutated row, provided the mutation keeps the id. -/
theorem updateFirst_find (db : List TaskRecord) (tid : String)
    (f : TaskRecord → TaskRecord) (hid : ∀ r, (f r).task_id = r.task_id) :
    (updateFirst db tid f).find? (fun r => r.task_id == tid) =
      (db.find? (fun r => r.task_id == tid)).map f := by
  induction db with
  | nil => rfl
  | cons r rest ih =>
    by_cases hr : r.task_id = tid
    · have hpf : ((f r).task_id == tid) = true := by simp [hid r, hr]
      have hpr : (r.task_id == tid) = true := by simp [hr]
      have e1 : List.find? (fun x : TaskRecord => x.task_id == tid) (f r :: rest)
          = some (f r) := List.find?_cons_of_pos _ hpf
      have e2 : List.find? (fun x : TaskRecord => x.task_id == tid) (r :: rest)
          = some r := List.find?_cons_of_pos _ hpr
      simp only [updateFirst, if_pos hr]
      rw [e1, e2]
      rfl
    · have hp : ¬((r.task_id == tid) = true) := by simp [hr]
      have e1 : List.find? (fun x : TaskRecord => x.task_id == tid)
            (r :: updateFirst rest tid f)
          = List.find? (fun x : TaskRecord => x.task_id == tid) (updateFirst rest tid f) :=
        List.find?_cons_of_neg _ hp
      have e2 : List.find? (fun x : TaskRecord => x.task_id == tid) (r :: rest)
          = List.find? (fun x : TaskRecord => x.task_id == tid) rest :=
        List.find?_cons_of_neg _ hp
      simp only [updateFirst, if_neg hr]
      rw [e1, e2, ih]

/-- A branch on a string compared with itself takes the then-branch. -/
theorem if_string_self {α : Type} (s : String) (a b : α) :
    (if s = s then a else b) = a := if_pos rfl

/-- The once/daily branch taken by a once-mode firing. -/
theorem if_once_ne_daily {α : Type} (a b : α) :
    (if ("once" : String) = "daily" then a else b) = b := if_neg (by decide)

/-- C9: a firing of a daily-mode job never changes the `status` (or the
`completed_at`) column of any persisted record — it only appends one entry
to the execution log inside the response payload of the matching record, capped
at the last 10 — whereas a once-mode firing moves the matching record to the
terminal `completed`/`failed` status. -/
theorem daily_status_remains_pending (task_id device_id : String) (feed_count : Int)
    (outcome : FeedOutcome) (now : Nat) (db : List TaskRecord) :
    ((executeFeedTask task_id device_id feed_count "daily" outcome now db).2.map
        TaskRecord.status = db.map TaskRecord.status) ∧
    ((executeFeedTask task_id device_id feed_count "daily" outcome now db).2.map
        TaskRecord.completed_at = db.map TaskRecord.completed_at) ∧
    (((executeFeedTask task_id device_id feed_count "daily" outcome now db).2.find?
        (fun r => r.task_id == task_id)).map TaskRecord.response =
      ((db.find? (fun r => r.task_id == task_id)).map fun r =>
        TaskResponse.executions
          (let log :=
            (match r.response with
              | TaskResponse.executions l => l
              | _ => []) ++
            [⟨(match outcome with | FeedOutcome.returned b => b | _ => false),
              device_id, feed_count, now,
              (match outcome with | FeedOutcome.raised e => some e | _ => none)⟩]
          if log.length > 10 then log.drop (log.length - 10) else log))) ∧
    (((executeFeedTask task_id device_id feed_count "once" outcome now db).2.find?
        (fun r => r.task_id == task_id)).map TaskRecord.status =
      ((db.find? (fun r => r.task_id == task_id)).map fun _ =>
        (match outcome with
          | FeedOutcome.returned true => "completed"
          | _ => "failed"))) := by
  refine ⟨?_, ?_, ?_, ?_⟩
  · cases outcome <;>
      simp only [executeFeedTask, if_string_self, updateTaskExecutionRecord] <;>
      exact updateFirst_map_of_preserve _ _ _ _ (fun r => rfl)
  · cases outcome <;>
      simp only [executeFeedTask, if_string_self, updateTaskExecutionRecord] <;>
      exact updateFirst_map_of_preserve _ _ _ _ (fun r => rfl)
  · cases outcome with
    | returned b =>
      simp only [executeFeedTask, if_string_self, eq_self_iff_true, if_true,
        updateTaskExecutionRecord]
      rw [updateFirst_find]
      · cases hdb : db.find? (fun r => r.task_id == task_id) <;> rfl
      · intro r
        rfl
    | raised e =>
      simp only [executeFeedTask, if_string_self, eq_self_iff_true, if_true,
        updateTaskExecutionRecord]
      rw [updateFirst_find]
      · cases hdb : db.find? (fun r => r.task_id == task_id) <;> rfl
      · intro r
        rfl
  · cases outcome with
    | returned b =>
      simp only [executeFeedTask, if_once_ne_daily, updateTaskStatus]
      rw [updateFirst_find]
      · cases hdb : db.find? (fun r => r.task_id == task_id) <;> cases b <;> rfl
      · intro r
        rfl
    | raised e =>
      simp only [executeFeedTask, if_once_ne_daily, updateTaskStatus]
      rw [updateFirst_find]
      · cases hdb : db.find? (fun r => r.task_id == task_id) <;> rfl
      · intro r
        rfl

/-- C3: the `create_schedule_task` tool together with
`ScheduleService.create_task` rejects a once-mode request whose instant is
not strictly in the future, and any request whose feed count lies outside
1-10, returning an unsuccessful result and leaving both the task store and
the in-memory scheduler exactly as they were. -/
theorem create_schedule_rejects_invalid_without_registration
    (task_id did : String) (feed_count : Int) (t : Nat) (mode : String)
    (now : Nat) (db : List TaskRecord) (sched : SchedState) :
    (mode = "once" → t ≤ now →
      createScheduleTask task_id (some did) feed_count (ScheduledTimeArg.parsed t)
        mode now db sched = (false, db, sched)) ∧
    (feed_count ≤ 0 ∨ feed_count > 10 →
      createScheduleTask task_id (some did) feed_count (ScheduledTimeArg.parsed t)
        mode now db sched = (false, db, sched)) ∧
    (mode = "once" → t ≤ now →
      createTask task_id did feed_count t mode now db sched = (false, db, sched)) := by
  refine ⟨?_, ?_, ?_⟩
  · intro hmode ht
    subst hmode
    simp only [createScheduleTask]
    rw [if_neg (by simp)]
    split
    · rfl
    · rw [if_neg (by simp)]
      simp only [createTask]
      simp [ht]
  · intro hfc
    simp only [createScheduleTask]
    rw [if_neg (by simp), if_pos hfc]
  · intro hmode ht
    simp only [createTask]
    rw [if_pos ⟨hmode, ht⟩]

/-- Concrete instance: a once-mode request at an already-elapsed instant is
rejected with no store or scheduler change. -/
theorem create_schedule_rejects_invalid_witness :
    createScheduleTask "tid" (some "dev") 1 (ScheduledTimeArg.parsed 5) "once" 10
      [] SchedState.init = (false, [], SchedState.init) := by
  have h := create_schedule_rejects_invalid_without_registration
    "tid" "dev" 1 5 "once" 10 [] SchedState.init
  exact h.1 rfl (by omega)

/-- Every `login` issues exactly the login vendor call. -/
theorem login_calls (st : FeederState) (w : List PostResult) :
    (login st w).calls = [CallKind.loginCall] := by
  cases w with
  | nil => rfl
  | cons r rest => cases r with
    | transportErr => rfl
    | ok s key =>
      simp only [login]
      split <;> rfl

/-- Every `feedPost` issues exactly the feed vendor call. -/
theorem feedPost_calls (st : FeederState) (w : List PostResult) :
    (feedPost st w).calls = [CallKind.feedCall] := by
  cases w with
  | nil => rfl
  | cons r rest => cases r <;> rfl

/-- One body attempt issues at most one feed call. -/
theorem feedBody_feedCall_le_one (st : FeederState) (w : List PostResult) :
    (feedBody st w).calls.count CallKind.feedCall ≤ 1 := by
  cases hk : st.authkey with
  | some k =>
    simp [feedBody, hk, feedPost_calls]
  | none =>
    simp only [feedBody, hk]
    split
    · simp [login_calls, feedPost_calls, List.count_append]
    · simp [login_calls]

/-- Counting feed calls across attempt, re-login, and retry. -/
theorem count_feed_retry_le (xs ys : List CallKind)
    (hx : xs.count CallKind.feedCall ≤ 1) (hy : ys.count CallKind.feedCall ≤ 1) :
    (xs ++ [CallKind.loginCall] ++ ys).count CallKind.feedCall ≤ 2 := by
  rw [List.count_append, List.count_append]
  have hz : ([CallKind.loginCall].count CallKind.feedCall) = 0 := by decide
  omega

/-- Counting feed calls across attempt and failed re-login. -/
theorem count_feed_relogin_le (xs : List CallKind)
    (hx : xs.count CallKind.feedCall ≤ 1) :
    (xs ++ [CallKind.loginCall]).count CallKind.feedCall ≤ 2 := by
  rw [List.count_append]
  have hz : ([CallKind.loginCall].count CallKind.feedCall) = 0 := by decide
  omega

/-- C4 (amended): the wrapped `feed` makes one body attempt and retries at
most once — never twice.  The retry trigger is the *recorded*
`_last_api_status` being 7 together with a still-cached authkey after the
first attempt: when the trigger does not hold, the first result is surfaced
untouched with no re-login and no retry; when it holds, the authkey is
invalidated and a fresh login performed, the body is retried exactly once on
login success, and the first result is surfaced on login failure.  Because
`_last_api_status` is only written by transport-successful device calls, the
trigger can also fire on a response that itself carried no status 7 (a stale
recorded 7), which is the one divergence from the original claim. -/
theorem auth_retry_amended (st : FeederState) (w : List PostResult) :
    (feed st w).calls.count CallKind.feedCall ≤ 2 ∧
    (¬((feedBody st w).st.lastApiStatus = some 7 ∧ (feedBody st w).st.authkey.isSome) →
      feed st w = feedBody st w) ∧
    ((feedBody st w).st.lastApiStatus = some 7 ∧ (feedBody st w).st.authkey.isSome →
      ((login { (feedBody st w).st with authkey := none } (feedBody st w).world).ret = true →
        feed st w =
          ⟨(feedBody (login { (feedBody st w).st with authkey := none }
              (feedBody st w).world).st
              (login { (feedBody st w).st with authkey := none } (feedBody st w).world).world).ret,
            (feedBody (login { (feedBody st w).st with authkey := none }
              (feedBody st w).world).st
              (login { (feedBody st w).st with authkey := none } (feedBody st w).world).world).st,
            (feedBody (login { (feedBody st w).st with authkey := none }
              (feedBody st w).world).st
              (login { (feedBody st w).st with authkey := none } (feedBody st w).world).world).world,
            (feedBody st w).calls ++ [CallKind.loginCall] ++
              (feedBody (login { (feedBody st w).st with authkey := none }
                (feedBody st w).world).st
                (login { (feedBody st w).st with authkey := none } (feedBody st w).world).world).calls⟩) ∧
      ((login { (feedBody st w).st with authkey := none } (feedBody st w).world).ret = false →
        feed st w =
          ⟨(feedBody st w).ret,
            (login { (feedBody st w).st with authkey := none } (feedBody st w).world).st,
            (login { (feedBody st w).st with authkey := none } (feedBody st w).world).world,
            (feedBody st w).calls ++ [CallKind.loginCall]⟩)) := by
  by_cases hcond :
      (feedBody st w).st.lastApiStatus = some 7 ∧ (feedBody st w).st.authkey.isSome
  · refine ⟨?_, fun h => absurd hcond h, fun _ => ⟨?_, ?_⟩⟩
    · simp only [feed, autoRetryOnAuthError, if_pos hcond]
      split
      · rw [login_calls]
        exact count_feed_retry_le _ _ (feedBody_feedCall_le_one _ _)
          (feedBody_feedCall_le_one _ _)
      · rw [login_calls]
        exact count_feed_relogin_le _ (feedBody_feedCall_le_one _ _)
    · intro hl
      simp only [feed, autoRetryOnAuthError, if_pos hcond, hl, if_true, login_calls]
    · intro hl
      simp only [feed, autoRetryOnAuthError, if_pos hcond, hl, Bool.false_eq_true,
        if_false, login_calls]
  · refine ⟨?_, fun _ => ?_, fun h => absurd h hcond⟩
    · have heq : feed st w = feedBody st w := by
        simp only [feed, autoRetryOnAuthError, if_neg hcond]
      rw [heq]
      have h1 := feedBody_feedCall_le_one st w
      omega
    · simp only [feed, autoRetryOnAuthError, if_neg hcond]

/-- Concrete instance: a failed preliminary login leaves the recorded status
clear, so the wrapper surfaces the body result with no retry. -/
theorem auth_retry_amended_witness :
    feed FeederState.init [PostResult.ok 3 ""] = feedBody FeederState.init [PostResult.ok 3 ""] := by
  have h := auth_retry_amended FeederState.init [PostResult.ok 3 ""]
  exact h.2.1 (by decide)

/-- C4 counterexample: the retry trigger reads the recorded
`_last_api_status`, which a transport failure does not update.  After a
first call whose retried feed failed at transport level (leaving the
recorded status stuck at 7), a second call whose own first response is a
transport error — not an auth-expiry status 7 — still invalidates the
cached authkey, logs in again, and retries, contradicting the claim that
only a status-7 response triggers the retry and that any other failure is
surfaced without retry. -/
theorem auth_retry_stale_status_counterexample :
    c4StateStale = ⟨some "k2", some 7⟩ ∧
    firstFeedResponse c4StateStale c4WorldB = some PostResult.transportErr ∧
    (feed c4StateStale c4WorldB).calls =
      [CallKind.feedCall, CallKind.loginCall, CallKind.feedCall] ∧
    (feed c4StateStale c4WorldB).st.authkey = some "k3" := by
  refine ⟨?_, ?_, ?_, ?_⟩ <;> rfl

/-- C7 counterexample: for a classification output that contains an opening
brace with no closing brace after it — unparseable as JSON — and that
plainly contains the keyword "camera", the router does *not* try keyword
matching (which would route to the camera node) but silently falls back to
the feeder defaults, because the keyword branch only runs when `find` never
saw a brace or `json.loads` itself failed. -/
theorem router_keyword_fallback_counterexample :
    deviceRouterRoute (fun _ => none) ('{' :: "camera".data)
      = (DeviceType.feeder, "feeder_agent_node") ∧
    containsSub "camera".data (('{' :: "camera".data).map Char.toLower) = true ∧
    keywordExtract ('{' :: "camera".data) = (DeviceType.camera, "camera_agent_node") := by
  refine ⟨?_, ?_, ?_⟩ <;> rfl

/-- C7 (amended): the router resolves exactly one route through this chain —
parseable JSON with a valid target node is used as-is, and with an invalid
target node both fields reset to the feeder defaults (without keyword
matching); keyword matching runs exactly when the output contains no opening
brace or JSON decoding of the brace-delimited substring fails; an opening
brace with no closing brace after it skips the keyword pass and yields the
feeder defaults; and when no keyword matches, keyword extraction itself
yields the feeder defaults.  Ambiguity is never an error, and the emitted
`routing` event names the returned pair. -/
theorem router_fallback_chain_amended (parse : List Char → Option RoutingJson)
    (rt : List Char) :
    (pyFind rt '{' = -1 → deviceRouterRoute parse rt = keywordExtract rt) ∧
    (pyFind rt '{' ≠ -1 →
      ¬(pyFind rt '{' ≠ -1 ∧ pyRfind rt '}' ≠ -1 ∧ pyRfind rt '}' > pyFind rt '{') →
      deviceRouterRoute parse rt = (DeviceType.feeder, "feeder_agent_node")) ∧
    ((pyFind rt '{' ≠ -1 ∧ pyRfind rt '}' ≠ -1 ∧ pyRfind rt '}' > pyFind rt '{') →
      parse (pySlice rt (pyFind rt '{') (pyRfind rt '}')) = none →
      deviceRouterRoute parse rt = keywordExtract rt) ∧
    (∀ rd, (pyFind rt '{' ≠ -1 ∧ pyRfind rt '}' ≠ -1 ∧ pyRfind rt '}' > pyFind rt '{') →
      parse (pySlice rt (pyFind rt '{') (pyRfind rt '}')) = some rd →
      deviceRouterRoute parse rt =
        (if rd.target_node.getD "feeder_agent_node" ∈ validNodes then
          (DeviceType.fromStr (rd.device_type.getD "feeder"),
            rd.target_node.getD "feeder_agent_node")
        else (DeviceType.feeder, "feeder_agent_node"))) ∧
    (containsSub "feeder".data (rt.map Char.toLower) = false →
      containsSub "喂食".data (rt.map Char.toLower) = false →
      containsSub "camera".data (rt.map Char.toLower) = false →
      containsSub "拍照".data (rt.map Char.toLower) = false →
      containsSub "摄像".data (rt.map Char.toLower) = false →
      containsSub "sensor".data (rt.map Char.toLower) = false →
      containsSub "传感器".data (rt.map Char.toLower) = false →
      containsSub "水质".data (rt.map Char.toLower) = false →
      keywordExtract rt = (DeviceType.feeder, "feeder_agent_node")) := by
  refine ⟨?_, ?_, ?_, ?_, ?_⟩
  · intro h
    simp only [deviceRouterRoute]
    rw [if_neg (fun hc => hc.1 h), if_pos h]
  · intro h hc
    simp only [deviceRouterRoute]
    rw [if_neg hc, if_neg h]
  · intro hc hparse
    simp only [deviceRouterRoute]
    rw [if_pos hc, hparse]
  · intro rd hc hparse
    simp only [deviceRouterRoute]
    rw [if_pos hc, hparse]
  · intro h1 h2 h3 h4 h5 h6 h7 h8
    simp [keywordExtract, h1, h2, h3, h4, h5, h6, h7, h8]

/-- Concrete instance: with no brace in the output, the router reduces to
keyword extraction. -/
theorem router_fallback_chain_amended_witness :
    deviceRouterRoute (fun _ => none) ('x' :: []) = keywordExtract ('x' :: []) := by
  have h := router_fallback_chain_amended (fun _ => none) ('x' :: [])
  exact h.1 (by decide)

/-- C10: parseable classification JSON naming one of the three recognized
agent nodes but a device-type string matching no enum member routes to that
node with device type `unknown` — no feeder fallback — so the emitted
routing event can name a device type outside the feeder/camera/sensor set. -/
theorem router_unknown_device_type_routing (parse : List Char → Option RoutingJson)
    (rt : List Char) (rd : RoutingJson) (tn : String)
    (hc : pyFind rt '{' ≠ -1 ∧ pyRfind rt '}' ≠ -1 ∧ pyRfind rt '}' > pyFind rt '{')
    (hparse : parse (pySlice rt (pyFind rt '{') (pyRfind rt '}')) = some rd)
    (htn : rd.target_node = some tn) (hvalid : tn ∈ validNodes)
    (hunknown : DeviceType.fromStr (rd.device_type.getD "feeder") = DeviceType.unknown) :
    deviceRouterRoute parse rt = (DeviceType.unknown, tn) ∧
    DeviceType.unknown.value = "unknown" ∧
    "unknown" ∉ [DeviceType.feeder.value, DeviceType.camera.value, DeviceType.sensor.value] := by
  refine ⟨?_, rfl, by decide⟩
  simp only [deviceRouterRoute]
  rw [if_pos hc, hparse]
  simp [htn, hvalid, hunknown]

/-- Concrete instance: valid JSON routing to the camera node with device
type "robot" yields the unknown device type on the camera node. -/
theorem router_unknown_device_type_witness :
    deviceRouterRoute (fun _ => some ⟨some "camera_agent_node", some "robot"⟩)
      ('{' :: 'x' :: '}' :: []) = (DeviceType.unknown, "camera_agent_node") := by
  have h := router_unknown_device_type_routing
    (fun _ => some ⟨some "camera_agent_node", some "robot"⟩)
    ('{' :: 'x' :: '}' :: []) ⟨some "camera_agent_node", some "robot"⟩
    "camera_agent_node" (by decide) rfl rfl (by decide) (by decide)
  exact h.1

/-- The invariant holds at the generator start. -/
theorem bridge_inv_init (c : BridgeConfig) : BridgeInv c BridgeState.init := by
  refine ⟨Nat.zero_le _, ?_, ?_, ?_, ?_, ?_, ?_⟩
  · intro h
    exact absurd h (by decide)
  · intro h
    exact absurd h (by decide)
  · intro h
    exact absurd h (by decide)
  · intro h
    exact absurd h (by decide)
  · intro _
    exact ⟨[], by simp [BridgeState.init], rfl⟩
  · intro h
    exact absurd h (by decide)

/-- The invariant is preserved by every interleaved step. -/
theorem bridge_step_inv {c : BridgeConfig} {s s2 : BridgeState}
    (hst : BridgeStep c s s2) (hinv : BridgeInv c s) : BridgeInv c s2 := by
  obtain ⟨h1, h2, h3, h4, h5, h6, h7⟩ := hinv
  cases hst with
  | push h hp =>
    have htake : c.evs.take (s.pushed + 1)
        = c.evs.take s.pushed ++ [c.evs.get ⟨s.pushed, h⟩] := by
      rw [List.take_succ, List.getElem?_eq_getElem h]
      simp [List.get_eq_getElem]
    refine ⟨?_, ?_, ?_, ?_, ?_, ?_, ?_⟩
    · show s.pushed + 1 ≤ c.evs.length
      omega
    · intro hpd
      have hpd2 : s.producerDone = true := hpd
      rw [hp] at hpd2
      exact absurd hpd2 (by decide)
    · intro hw
      exact h3 hw
    · intro hph
      exact h4 hph
    · intro hf
      obtain ⟨hwd, _⟩ := h5 hf
      have h' := h3 hwd
      rw [hp] at h'
      exact absurd h' (by decide)
    · intro hwf
      obtain ⟨A, hA, hout⟩ := h6 hwf
      refine ⟨A, ?_, hout⟩
      show A ++ (s.queue ++ [c.evs.get ⟨s.pushed, h⟩]) = c.evs.take (s.pushed + 1)
      rw [htake, ← List.append_assoc, hA]
    · intro hwt
      have h' := h3 hwt
      rw [hp] at h'
      exact absurd h' (by decide)
  | finish h hp =>
    refine ⟨h1, fun _ => h, fun _ => rfl, fun hph => h4 hph, fun hf => h5 hf,
      fun hwf => h6 hwf, fun hwt => h7 hwt⟩
  | consumeGet e rest hph hq =>
    refine ⟨h1, h2, h3, fun hph2 => h4 hph2, ?_, ?_, ?_⟩
    · intro hf
      have hf2 : s.phase = Phase.finished := hf
      rw [hph] at hf2
      exact absurd hf2 (by decide)
    · intro hwf
      obtain ⟨A, hA, hout⟩ := h6 hwf
      refine ⟨A ++ [e], ?_, ?_⟩
      · show (A ++ [e]) ++ rest = c.evs.take s.pushed
        calc (A ++ [e]) ++ rest = A ++ (e :: rest) := by simp
          _ = A ++ s.queue := by rw [hq]
          _ = c.evs.take s.pushed := hA
      · show s.out ++ [Frame.event e] = Frame.start :: (A ++ [e]).map Frame.event
        rw [hout]
        simp
    · intro hwt
      obtain ⟨A, B, hAB, hout⟩ := h7 hwt
      refine ⟨A, B ++ [e], ?_, ?_⟩
      · show A ++ (B ++ [e]) ++ rest = c.evs.take s.pushed
        have hshape : A ++ (B ++ [e]) ++ rest = A ++ B ++ (e :: rest) := by simp
        rw [hshape, ← hq]
        exact hAB
      · show s.out ++ [Frame.event e] =
          Frame.start ::
            (A.map Frame.event ++ terminalFrame c.final :: (B ++ [e]).map Frame.event)
        rw [hout]
        simp
  | consumeTimeout hph hq hw =>
    refine ⟨h1, h2, h3, fun _ => hw, ?_, fun hwf => h6 hwf, fun hwt => h7 hwt⟩
    intro hf
    have hf2 : Phase.timedOut = Phase.finished := hf
    exact absurd hf2 (by decide)
  | resumePending hph hp =>
    refine ⟨h1, h2, h3, ?_, ?_, fun hwf => h6 hwf, fun hwt => h7 hwt⟩
    · intro h'
      have h'2 : Phase.waiting = Phase.timedOut := h'
      exact absurd h'2 (by decide)
    · intro h'
      have h'2 : Phase.waiting = Phase.finished := h'
      exact absurd h'2 (by decide)
  | resumeDone hph hp =>
    refine ⟨h1, h2, fun _ => hp, ?_, ?_, ?_, ?_⟩
    · intro h'
      have h'2 : Phase.waiting = Phase.timedOut := h'
      exact absurd h'2 (by decide)
    · intro h'
      have h'2 : Phase.waiting = Phase.finished := h'
      exact absurd h'2 (by decide)
    · intro hwf
      have hwf2 : (true : Bool) = false := hwf
      exact absurd hwf2 (by decide)
    · intro _
      have hwdf : s.workflowDone = false := h4 hph
      obtain ⟨A, hA, hout⟩ := h6 hwdf
      refine ⟨A, [], ?_, ?_⟩
      · show A ++ [] ++ s.queue = c.evs.take s.pushed
        simpa using hA
      · show s.out ++ [terminalFrame c.final] =
          Frame.start ::
            (A.map Frame.event ++ terminalFrame c.final :: ([] : List Nat).map Frame.event)
        rw [hout]
        simp
  | exitLoop hph hw hq =>
    refine ⟨h1, h2, h3, ?_, fun _ => ⟨hw, hq⟩, ?_, fun hwt => h7 hwt⟩
    · intro h'
      have h'2 : Phase.finished = Phase.timedOut := h'
      exact absurd h'2 (by decide)
    · intro hwf
      have hwf2 : s.workflowDone = false := hwf
      rw [hw] at hwf2
      exact absurd hwf2 (by decide)

/-- Every reachable generator configuration satisfies the invariant. -/
theorem bridge_reachable_inv {c : BridgeConfig} {s : BridgeState}
    (h : BridgeReachable c s) : BridgeInv c s := by
  induction h with
  | init => exact bridge_inv_init c
  | step _ hs ih => exact bridge_step_inv hs ih

/-- C2 (amended): in every interleaving, a finished stream consists of the
start frame, then the pushed events in push order with no duplicates or
drops, with exactly one terminal done/error frame (derived from the
final workflow state) inserted at the completion-detection point: events
already dequeued precede it, and events still buffered when completion is
detected follow it — instead of all events strictly preceding the terminal
frame as originally claimed. -/
theorem stream_events_order_amended (c : BridgeConfig) (s : BridgeState)
    (h : BridgeReachable c s) (hfin : s.phase = Phase.finished) :
    ∃ A B, A ++ B = c.evs ∧
      s.out = Frame.start ::
        (A.map Frame.event ++ terminalFrame c.final :: B.map Frame.event) := by
  obtain ⟨h1, h2, h3, h4, h5, h6, h7⟩ := bridge_reachable_inv h
  obtain ⟨hwd, hq⟩ := h5 hfin
  obtain ⟨A, B, hAB, hout⟩ := h7 hwd
  have hlen := h2 (h3 hwd)
  refine ⟨A, B, ?_, hout⟩
  rw [hq, List.append_nil, hlen, List.take_length] at hAB
  exact hAB

/-- Concrete instance of the amended ordering on an event-free run. -/
theorem stream_events_order_amended_witness :
    ∃ A B, A ++ B = ([] : List Nat) ∧
      ([Frame.start, Frame.done true] : List Frame) =
        Frame.start ::
          (A.map Frame.event ++
            terminalFrame (FinalOutcome.result true) :: B.map Frame.event) := by
  have h0 : BridgeReachable ⟨[], FinalOutcome.result true⟩ BridgeState.init :=
    BridgeReachable.init
  have h1 : BridgeReachable ⟨[], FinalOutcome.result true⟩
      ⟨0, true, [], [Frame.start], false, Phase.waiting⟩ :=
    h0.step (BridgeStep.finish _ rfl rfl)
  have h2 : BridgeReachable ⟨[], FinalOutcome.result true⟩
      ⟨0, true, [], [Frame.start], false, Phase.timedOut⟩ :=
    h1.step (BridgeStep.consumeTimeout _ rfl rfl rfl)
  have h3 : BridgeReachable ⟨[], FinalOutcome.result true⟩
      ⟨0, true, [], [Frame.start, Frame.done true], true, Phase.waiting⟩ :=
    h2.step (BridgeStep.resumeDone _ rfl rfl)
  have h4 : BridgeReachable ⟨[], FinalOutcome.result true⟩
      ⟨0, true, [], [Frame.start, Frame.done true], true, Phase.finished⟩ :=
    h3.step (BridgeStep.exitLoop _ rfl rfl rfl)
  exact stream_events_order_amended _ _ h4 rfl

/-- C2 counterexample: with one pushed event, asyncio may time the receive
timeout so that the push and the workflow completion land between the timer
expiry and the consumer resumption; the generator then yields the terminal
`done` frame first and the pushed event *after* it.  The finished output
`start, done, event` is reachable and differs from the claimed
`start, event, done` — an event is emitted after the terminal frame. -/
theorem stream_terminal_event_order_counterexample :
    BridgeReachable ⟨[0], FinalOutcome.result true⟩
      ⟨1, true, [], [Frame.start, Frame.done true, Frame.event 0], true,
        Phase.finished⟩ ∧
    ([Frame.start, Frame.done true, Frame.event 0] : List Frame) ≠
      Frame.start ::
        (([0] : List Nat).map Frame.event ++ [terminalFrame (FinalOutcome.result true)]) := by
  constructor
  · have h0 : BridgeReachable ⟨[0], FinalOutcome.result true⟩ BridgeState.init :=
      BridgeReachable.init
    have h1 : BridgeReachable ⟨[0], FinalOutcome.result true⟩
        ⟨0, false, [], [Frame.start], false, Phase.timedOut⟩ :=
      h0.step (BridgeStep.consumeTimeout _ rfl rfl rfl)
    have h2 : BridgeReachable ⟨[0], FinalOutcome.result true⟩
        ⟨1, false, [0], [Frame.start], false, Phase.timedOut⟩ :=
      h1.step (BridgeStep.push _ (by decide) rfl)
    have h3 : BridgeReachable ⟨[0], FinalOutcome.result true⟩
        ⟨1, true, [0], [Frame.start], false, Phase.timedOut⟩ :=
      h2.step (BridgeStep.finish _ rfl rfl)
    have h4 : BridgeReachable ⟨[0], FinalOutcome.result true⟩
        ⟨1, true, [0], [Frame.start, Frame.done true], true, Phase.waiting⟩ :=
      h3.step (BridgeStep.resumeDone _ rfl rfl)
    have h5 : BridgeReachable ⟨[0], FinalOutcome.result true⟩
        ⟨1, true, [], [Frame.start, Frame.done true, Frame.event 0], true,
          Phase.waiting⟩ :=
      h4.step (BridgeStep.consumeGet _ 0 [] rfl rfl)
    exact h5.step (BridgeStep.exitLoop _ rfl rfl rfl)
  · decide

end DeviceAgent
